import Mathlib

/-!
Verification of the preprocess-gdl discovery/pipeline core.

This file shallowly embeds the discovery engine (`tile_list_glob` in
`preprocess_glob.py`) and the per-stage processing functions
(`pansharpen`, `gdal_8bit_rescale`, `rasterio_merge_tiles`,
`get_band_order`, `gdal_split_band` in `PansharpRaster.py`).

External collaborators (filesystem, glob results, `rasterio` raster
reading, `difflib.get_close_matches`, `gdal.Translate`, `rasterio.merge`,
`xml.etree.ElementTree.parse`) are modelled as oracles carried in an
environment record; pure path arithmetic on POSIX-style path strings is
modelled by the helpers below.  The control flow and data flow of the
Python functions are translated statement by statement.
-/

/-- Model of the `/` operator of pathlib on path strings. -/
def pjoin (a b : String) : String := a ++ "/" ++ b

/-- Fuel-indexed splitter on character lists: splits at every non-overlapping
occurrence of the (non-empty) separator, scanning left to right.  The fuel
only needs to bound the list length; structural recursion on it keeps the
function kernel-reducible. -/
def splitFuel (sep : List Char) : Nat → List Char → List (List Char)
  | _, [] => [[]]
  | 0, l => [l]
  | fuel + 1, c :: rest =>
    if sep.isPrefixOf (c :: rest) then
      [] :: splitFuel sep fuel (List.drop (sep.length - 1) rest)
    else
      match splitFuel sep fuel rest with
      | [] => [[c]]
      | g :: gs => (c :: g) :: gs

/-- Model of Python `str.split(sep)` (and of `String.splitOn`): structural,
so concrete instances evaluate by kernel reduction. -/
def pySplit (s sep : String) : List String :=
  if sep.data.isEmpty then [s]
  else (splitFuel sep.data (s.data.length + 1) s.data).map String.mk

/-- Joins a list of strings with a separator (model of `str.join`). -/
def joinSep (sep : String) : List String → String
  | [] => ""
  | [x] => x
  | x :: xs => x ++ sep ++ joinSep sep xs

/-- Model of Python `str.replace(old, new)` for non-empty `old`: every
occurrence is replaced. -/
def pyReplace (s old new : String) : String := joinSep new (pySplit s old)

/-- Model of Python `str.startswith` / `String.startsWith`. -/
def pyStartsWith (s p : String) : Bool := p.data.isPrefixOf s.data

/-- Model of Python `str.endswith` / `String.endsWith`. -/
def pyEndsWith (s p : String) : Bool := p.data.isSuffixOf s.data

/-- Model of `Path.name`: the final path component. -/
def pathName (p : String) : String := (pySplit p "/").getLastD p

/-- Model of `Path.stem`: final component without its last suffix.
(Simplification: dot-initial names like `.bashrc` are not treated
specially; no such name occurs in this development.) -/
def pathStem (p : String) : String :=
  let n := pathName p
  let parts := pySplit n "."
  if parts.length ≤ 1 then n else joinSep "." parts.dropLast

/-- The regex word class of the Python `re` module (ASCII view): letters, digits, underscore. -/
def isWordChar (c : Char) : Bool := c.isAlphanum || c = '_'

/-- Model of the regex substitution replacing each RwCw pattern (R, word
char, C, word char) by the text Merge, on a character list: left-to-right,
non-overlapping (PansharpRaster.py:322-323). -/
def subRwCwAux : List Char → List Char
  | [] => []
  | 'R' :: a :: 'C' :: b :: rest =>
      if isWordChar a && isWordChar b then
        'M' :: 'e' :: 'r' :: 'g' :: 'e' :: subRwCwAux rest
      else
        'R' :: subRwCwAux (a :: 'C' :: b :: rest)
  | c :: rest => c :: subRwCwAux rest

/-- String version of `subRwCwAux`. -/
def subRwCw (s : String) : String := String.mk (subRwCwAux s.data)

/-- `TileInfo` dataclass (preprocess_glob.py:20-33).  Paths are modelled as
strings; dataclass fields that default to `None` are `Option`s. -/
structure TileInfo where
  parent_folder : String
  process_steps : List String
  dtype : String
  image_folder : String
  mul_pan_patern : Option ((String × String) × (String × String)) := none
  mul_tile : Option String := none
  pan_tile : Option String := none
  psh_tile : Option String := none
  prep_folder : Option String := none
  last_processed_fp : Option String := none
  mul_xml : Option String := none
  errors : Option (List String) := none
deriving DecidableEq, Repr

/-- `ImageInfo` dataclass (preprocess_glob.py:36-45). -/
structure ImageInfo where
  parent_folder : String
  image_folder : String
  prep_folder : Option String := none
  tile_list : Option (List String) := none
  merge_img_fp : Option String := none
  band_file_list : Option (List String) := none
  mul_xml : Option String := none
  errors : Option String := none
deriving DecidableEq, Repr

/-- One entry of `mul_pan_info_list` (preprocess_glob.py:109):
`[tuple(mul_pan_glob[x]), tuple(mul_pan_str[x])]`. -/
structure MulPanInfo where
  globPair : String × String
  strPair : String × String
deriving DecidableEq, Repr

/-- One multispectral raster yielded by the glob at preprocess_glob.py:133,
together with the values the source derives from it by pure path
arithmetic (lines 137-170 and 193-206): the relative path, the image
folder two levels up, the sorted panchromatic glob results as strings
relative to the image folder, the best-guess panchromatic name after
marker substitution, the XML manifest path, and the prep output folder. -/
structure MulCandidate where
  mulRasterRel : String
  imageFolder : String
  panGlobResults : List String
  panBestGuess : String
  mulXml : String
  prepFolder : String
deriving DecidableEq, Repr

/-- One already-pansharpened raster yielded by the glob at
preprocess_glob.py:231, with its derived path values (lines 240-256). -/
structure PshCandidate where
  pshRasterRel : String
  imageFolder : String
  mulXml : String
  prepFolder : String
deriving DecidableEq, Repr

/-- Environment of external effects consumed by `tile_list_glob`:
the working directory on entry, the `validate_file_exists` oracle, the
two glob oracles (keyed by the full glob pattern string), the
`difflib.get_close_matches` oracle, and the rasterio dtype reader
(`none` models a caught `RasterioIOError`).

`manifestTiles` is Modelled from the spec: the Tile-Manifest Reader of
§4.2 (ordered tile list of the XML manifest of an acquisition) has no
counterpart in `src/`; it is carried here so claims about manifests can
be stated.  `tile_list_glob` (the source) never consults it. -/
structure GlobEnv where
  cwd0 : String
  isFile : String → Bool
  mulGlob : String → List MulCandidate
  pshGlobResults : String → List PshCandidate
  closeMatches : String → List String → List String
  readDtype : String → Option String
  manifestTiles : String → List String

/-- Result of processing one multispectral candidate
(preprocess_glob.py:136-221): skip to the next candidate (`continue`),
emit a `TileInfo`, or raise an exception that escapes the loop.
Each constructor carries the `err_mgs` messages logged on the way. -/
inductive StepRes where
  | skip (errs : List String)
  | emit (t : TileInfo) (errs : List String)
  | exc (e : String) (errs : List String)
deriving DecidableEq, Repr

/-- Body of the multispectral loop (preprocess_glob.py:136-221), for one
candidate `c` found with pattern pair `info`. -/
def processMulCandidate (env : GlobEnv) (baseDir : String) (info : MulPanInfo)
    (c : MulCandidate) : StepRes :=
  -- lines 142-145: path-length warning is appended but does NOT skip
  let errs0 : List String :=
    if env.isFile (pjoin c.imageFolder c.mulRasterRel) then []
    else ["Check absolute path length. May exceed 260 characters."]
  -- lines 149-158: no panchromatic glob result -> record and continue
  if c.panGlobResults.isEmpty then
    .skip (errs0 ++ ["The provided glob pattern " ++ info.globPair.snd ++ "/*." ++
      " could not locate a potential panchromatic raster to match " ++
      c.mulRasterRel ++ ". Skipping to next multispectral raster..."])
  else
    -- lines 160-172: best-guess substitution resolved through the Matcher;
    -- `get_close_matches(...)[0]` raises IndexError on an empty match list
    match env.closeMatches c.panBestGuess c.panGlobResults with
    | [] => .exc "IndexError: list index out of range" errs0
    | panRasterRel :: _ =>
      -- lines 173-177: matched panchromatic file must exist
      if !env.isFile (pjoin c.imageFolder panRasterRel) then
        .skip (errs0 ++ ["Panchromatic raster not found to match multispectral raster " ++
          c.mulRasterRel])
      else
        -- lines 181-186: read the multispectral dtype; a RasterioIOError
        -- is caught, logged (not appended to err_mgs) and skips
        match env.readDtype (pjoin c.imageFolder c.mulRasterRel) with
        | none => .skip errs0
        | some dtype =>
          -- lines 200-202: the process-steps plan
          let process_steps := ["psh"] ++ (if dtype ≠ "uint8" then ["scale"] else [])
          -- lines 204-211: XML manifest must exist
          if !env.isFile c.mulXml then
            .skip (errs0 ++ ["No XML file found in " ++ c.mulXml])
          else
            -- lines 213-221: emit the TileInfo record
            .emit
              { parent_folder := baseDir
                image_folder := c.imageFolder
                mul_pan_patern := some (info.globPair, info.strPair)
                mul_tile := some c.mulRasterRel
                pan_tile := some panRasterRel
                prep_folder := some c.prepFolder
                dtype := dtype
                process_steps := process_steps
                mul_xml := some c.mulXml }
              errs0

/-- Body of the pansharpened-raster loop (preprocess_glob.py:232-271).
This pass keeps no `err_mgs` list; its warnings go to the log only. -/
def processPshCandidate (env : GlobEnv) (baseDir : String) (c : PshCandidate) :
    Option TileInfo :=
  -- lines 233-238: read dtype; RasterioIOError is caught and skips
  match env.readDtype (pjoin baseDir (pjoin c.imageFolder c.pshRasterRel)) with
  | none => none
  | some psh_dtype =>
    -- lines 254-260: XML manifest must exist
    if !env.isFile c.mulXml then none
    else
      -- lines 262-267: plan and record (`psh` is never planned here)
      let process_steps := if psh_dtype ≠ "uint8" then ["scale"] else []
      some
        { parent_folder := baseDir
          image_folder := c.imageFolder
          psh_tile := some c.pshRasterRel
          prep_folder := some c.prepFolder
          dtype := psh_dtype
          process_steps := process_steps
          last_processed_fp := some (pjoin baseDir (pjoin c.imageFolder c.pshRasterRel))
          mul_xml := some c.mulXml }

/-- `itertools.product` over two lists, in the Python iteration order. -/
def prodList {α β : Type} (xs : List α) (ys : List β) : List (α × β) :=
  xs.flatMap fun a => ys.map fun b => (a, b)

/-- Accumulated outcome of the multispectral pass: emitted records, logged
error messages, and the exception (if one escaped the loop). -/
structure PassAcc where
  tiles : List TileInfo
  errsLog : List String
  exc : Option String
deriving DecidableEq, Repr

/-- The multispectral pass (preprocess_glob.py:129-221) over the flattened
candidate stream.  An exception aborts the remaining candidates but the
records already emitted (observable through the per-record csv write at
line 221) are kept in the trace. -/
def runPass1 (env : GlobEnv) (baseDir : String) :
    List (MulPanInfo × MulCandidate) → PassAcc
  | [] => ⟨[], [], none⟩
  | (info, c) :: rest =>
    match processMulCandidate env baseDir info c with
    | .exc e errs => ⟨[], errs, some e⟩
    | .skip errs =>
      let r := runPass1 env baseDir rest
      ⟨r.tiles, errs ++ r.errsLog, r.exc⟩
    | .emit t errs =>
      let r := runPass1 env baseDir rest
      ⟨t :: r.tiles, errs ++ r.errsLog, r.exc⟩

/-- The pansharpened pass (preprocess_glob.py:228-271) over the flattened
candidate stream; it cannot raise. -/
def runPass2 (env : GlobEnv) (baseDir : String) :
    List PshCandidate → List TileInfo
  | [] => []
  | c :: rest =>
    match processPshCandidate env baseDir c with
    | none => runPass2 env baseDir rest
    | some t => t :: runPass2 env baseDir rest

/-- Full outcome of a `tile_list_glob` call: the escaped exception (if
any), the emitted records, the logged error messages, the process working
directory after the call, and whether any glob was performed. -/
structure GlobOutcome where
  exc : Option String
  tiles : List TileInfo
  errsLog : List String
  finalCwd : String
  didGlob : Bool
deriving DecidableEq, Repr

/-- `tile_list_glob` (preprocess_glob.py:77-281).

* line 105: `assert len(mul_pan_glob) == len(mul_pan_str)` — an
  `AssertionError` escapes before any other work;
* line 109: `mul_pan_info_list` pairs the glob patterns with the marker
  strings (modelled as `zip`, the lists having equal length past the
  assert);
* line 111: `os.chdir(base_dir)` — the working directory is changed and
  never restored;
* lines 129-221: multispectral pass over
  `product(mul_pan_info_list, extensions)`;
* lines 228-271: pansharpened pass over `product(psh_glob, extensions)`,
  only when `psh_glob` is non-empty;
* line 281: returns the accumulated record list. -/
def tile_list_glob (env : GlobEnv) (baseDir : String)
    (mulPanGlob mulPanStr : List (String × String))
    (pshGlob : List String) (extensions : List String) : GlobOutcome :=
  if mulPanGlob.length = mulPanStr.length then
    let infos := (mulPanGlob.zip mulPanStr).map fun p => MulPanInfo.mk p.fst p.snd
    -- line 111: os.chdir(base_dir); cwd stays baseDir until return
    let pairs1 := prodList infos extensions
    let cands1 := pairs1.flatMap fun pe =>
      (env.mulGlob (pe.fst.globPair.fst ++ "." ++ pe.snd)).map fun c => (pe.fst, c)
    let r1 := runPass1 env baseDir cands1
    let didGlob1 := !pairs1.isEmpty
    match r1.exc with
    | some e => ⟨some e, r1.tiles, r1.errsLog, baseDir, didGlob1⟩
    | none =>
      if pshGlob.isEmpty then
        ⟨none, r1.tiles, r1.errsLog, baseDir, didGlob1⟩
      else
        let pairs2 := prodList pshGlob extensions
        let cands2 := pairs2.flatMap fun pe =>
          env.pshGlobResults (pe.fst ++ "." ++ pe.snd)
        let tiles2 := runPass2 env baseDir cands2
        ⟨none, r1.tiles ++ tiles2, r1.errsLog, baseDir, didGlob1 || !pairs2.isEmpty⟩
  else
    ⟨some "AssertionError: Missing info about multispectral and panchromatic images",
      [], [], env.cwd0, false⟩

/-- Environment of external effects for the processing stages of
`PansharpRaster.py`: the filesystem as seen before a stage runs
(`isFile`, also backing `validate_file_exists`), the filesystem as seen
by the post-call output check of a stage (`isFileAfter`, reflecting files the
collaborator may have created), and the behaviour of the collaborators:
whether `otb_pansharp` raises `RuntimeError`, whether importing
`pansharp_numpy` raises `ImportError`, whether the numpy `pansharpen`
call raises, whether `gdal.Translate` fails for a given output path,
whether `rasterio` open/merge/write fails, and the parsed XML tree of a
manifest (`none` models `ET.parse` raising on a missing or unparsable
file; a tree is the list of the root node children as
(tag, list of child tags)). -/
structure RasterEnv where
  isFile : String → Bool
  isFileAfter : String → Bool
  otbRaises : Bool
  otbErrMsg : String
  numpyImportFails : Bool
  numpyRaises : Bool
  translateFails : String → Bool
  mergeFails : Bool
  parseXml : String → Option (List (String × List String))

/-- Outcome of `pansharpen` (PansharpRaster.py:201-275).  `exc` is an
exception escaping the call; `retval` is the Python return value —
`none` for a bare `return`, otherwise `(output_psh_path, errors)` (the
source returns the errors list at line 240 and its string repr at line
275; both are modelled by the list).  `recorded` is the final content of
the local `errors` list, and the two flags trace whether a collaborator
was invoked. -/
structure PansharpenOut where
  exc : Option String := none
  retval : Option (String × List String) := none
  recorded : List String := []
  otbCalled : Bool := false
  numpyCalled : Bool := false
deriving DecidableEq, Repr

/-- `pansharpen` (PansharpRaster.py:201-275). -/
def pansharpen (env : RasterEnv) (tile_info : TileInfo) (method : String)
    (dry_run : Bool) (overwrite : Bool) : PansharpenOut :=
  -- lines 222-223: attribute access on the Option fields
  match tile_info.mul_tile, tile_info.pan_tile, tile_info.mul_pan_patern,
      tile_info.prep_folder with
  | some mul_tile, some pan_tile, some patern, some prep_folder =>
    let multispectral := pjoin tile_info.parent_folder
      (pjoin tile_info.image_folder mul_tile)
    let panchromatic := pjoin tile_info.parent_folder
      (pjoin tile_info.image_folder pan_tile)
    -- lines 226-230: output pansharp name
    let pan_raster_splits := pySplit (pathStem pan_tile) patern.snd.snd
    let pansharp_method :=
      if pyStartsWith method "otb-" then (pySplit method "otb-").getLastD ""
      else method
    let output_psh_name := pan_raster_splits.headD "" ++ ("-PSH-" ++ pansharp_method ++ "-")
      ++ pan_raster_splits.getLastD "" ++ "_" ++ tile_info.dtype ++ ".TIF"
    let output_psh_path := pjoin tile_info.parent_folder
      (pjoin tile_info.image_folder (pjoin prep_folder output_psh_name))
    -- lines 232-236: both inputs missing -> record and bare `return`
    if !(env.isFile multispectral || env.isFile panchromatic) then
      { retval := none
        recorded := ["Unable to pansharp due to missing mul " ++ multispectral ++
          " or pan " ++ panchromatic] }
    -- lines 237-240: output exists and no overwrite -> skip, return (path, errors)
    else if env.isFile output_psh_path && !overwrite then
      { retval := some (output_psh_path, []) }
    else
      -- lines 242-256: otb backend; RuntimeError is caught, recorded, bare `return`
      if pyStartsWith method "otb-" then
        if !dry_run && env.otbRaises then
          { retval := none, recorded := [env.otbErrMsg], otbCalled := true }
        else
          -- lines 271-275: post-call output check
          if !env.isFileAfter output_psh_path then
            { retval := some (output_psh_path,
                ["Failed to created pansharp: " ++ output_psh_path])
              recorded := ["Failed to created pansharp: " ++ output_psh_path]
              otbCalled := !dry_run }
          else
            { retval := some (output_psh_path, []), otbCalled := !dry_run }
      -- lines 257-265: numpy backends; the import error is caught, a failure
      -- of the numpy call itself is NOT caught and escapes
      else if method ∈ ["simple_brovey", "brovey", "simple_mean", "esri", "hsv"] then
        if env.numpyImportFails then
          { retval := none, recorded := ["ImportError: pansharp_numpy"] }
        else if !dry_run && env.numpyRaises then
          { exc := some "Exception raised inside pansharp_numpy.pansharpen"
            numpyCalled := true }
        else
          if !env.isFileAfter output_psh_path then
            { retval := some (output_psh_path,
                ["Failed to created pansharp: " ++ output_psh_path])
              recorded := ["Failed to created pansharp: " ++ output_psh_path]
              numpyCalled := !dry_run }
          else
            { retval := some (output_psh_path, []), numpyCalled := !dry_run }
      -- lines 266-269: unknown method is recorded, then falls through to the check
      else
        let not_impl := "Requested pansharp method " ++ method ++ " is not implemented"
        if !env.isFileAfter output_psh_path then
          { retval := some (output_psh_path,
              [not_impl, "Failed to created pansharp: " ++ output_psh_path])
            recorded := [not_impl, "Failed to created pansharp: " ++ output_psh_path] }
        else
          { retval := some (output_psh_path, [not_impl]), recorded := [not_impl] }
  | _, _, _, _ => { exc := some "TypeError / AttributeError: missing TileInfo field" }

/-- Outcome of `gdal_8bit_rescale` (PansharpRaster.py:278-308):
the returned `(outfile, error)` pair, the escaped exception if any, and
whether `gdal.Translate` was invoked. -/
structure RescaleOut where
  exc : Option String := none
  ret : Option (String × Option String) := none
  translateCalled : Bool := false
deriving DecidableEq, Repr

/-- `gdal_8bit_rescale` (PansharpRaster.py:278-308).  The `try` around
`gdal.Translate` has a bare `except`, so a translate failure is turned
into an error string, never an exception. -/
def gdal_8bit_rescale (env : RasterEnv) (tile_info : TileInfo)
    (overwrite : Bool) : RescaleOut :=
  match tile_info.last_processed_fp, tile_info.prep_folder with
  | some infile, some prep_folder =>
    -- lines 290-293: output name from the stem of the last processed file
    let stem := pathStem infile
    let outfile_name :=
      if pyEndsWith stem ("_" ++ tile_info.dtype) then
        pyReplace stem ("_" ++ tile_info.dtype) "_uint8.tif"
      else stem ++ "_uint8.tif"
    let outfile := pjoin tile_info.parent_folder
      (pjoin tile_info.image_folder (pjoin prep_folder outfile_name))
    -- lines 295-297: skip if output exists and no overwrite
    if env.isFile outfile && !overwrite then
      { ret := some (outfile, none) }
    else
      -- lines 299-308
      let error := if env.translateFails outfile then
          some ("ERROR: Could not scale " ++ outfile)
        else none
      { ret := some (outfile, error), translateCalled := true }
  | _, _ => { exc := some "TypeError / AttributeError: missing TileInfo field" }

/-- Outcome of `rasterio_merge_tiles` (PansharpRaster.py:311-350). -/
structure MergeOut where
  exc : Option String := none
  ret : Option (String × Option String) := none
  mergeCalled : Bool := false
deriving DecidableEq, Repr

/-- `rasterio_merge_tiles` (PansharpRaster.py:311-350).  The whole open /
merge / write block sits under a bare `except`, so a merge failure is an
error string; `image_info.tile_list[0]` raises `IndexError` on an empty
list. -/
def rasterio_merge_tiles (env : RasterEnv) (image_info : ImageInfo)
    (overwrite : Bool) : MergeOut :=
  match image_info.tile_list, image_info.prep_folder with
  | some tile_list, some prep_folder =>
    match tile_list with
    | [] => { exc := some "IndexError: list index out of range" }
    | t0 :: _ =>
      -- lines 322-324: output name by regex substitution on the stem of the first tile
      let outfile_name := subRwCw (pathStem t0) ++ ".tif"
      let outfile := pjoin image_info.parent_folder
        (pjoin image_info.image_folder (pjoin prep_folder outfile_name))
      -- lines 326-328: skip if output exists and no overwrite
      if env.isFile outfile && !overwrite then
        { ret := some (outfile, none) }
      else
        -- lines 330-350
        let error := if env.mergeFails then
            some ("Could not merge image " ++ image_info.image_folder)
          else none
        { ret := some (outfile, error), mergeCalled := true }
  | _, _ => { exc := some "TypeError: missing ImageInfo field" }

/-- `get_band_order` (PansharpRaster.py:353-373).  `ET.parse` raises when
the file is missing or unparsable (modelled by `parseXml` returning
`none`); otherwise the BAND tags of the last `IMD` child are collected,
and an error message is returned when none are found. -/
def get_band_order (env : RasterEnv) (xml_file : String) :
    Except String (List String × Option String) :=
  match env.parseXml xml_file with
  | none => .error ("ET.ParseError / FileNotFoundError: " ++ xml_file)
  | some children =>
    let l_band_order := children.foldl
      (fun acc c => if c.fst = "IMD"
        then c.snd.filter (fun j => pyStartsWith j "BAND_") else acc) []
    let err_msg := if l_band_order.isEmpty then
        some ("Could not locate band(s) name and order in provided xml file: " ++ xml_file)
      else none
    .ok (l_band_order, err_msg)

/-- Outcome of `gdal_split_band` (PansharpRaster.py:376-412): the escaped
exception if any, the returned `(list_band_file, error)` pair, and the
trace of `gdal.Translate` invocations as (output path, band number). -/
structure SplitOut where
  exc : Option String := none
  ret : Option (List String × List String) := none
  translated : List (String × Nat) := []
deriving DecidableEq, Repr

/-- Loop body of `gdal_split_band` (PansharpRaster.py:391-409): on the
first band whose output already exists (without overwrite) the function
returns `[that path]` at once; otherwise the band is translated (a
failure appending an error under the bare `except`) and appended. -/
def splitLoop (env : RasterEnv) (parent image prep stem : String)
    (fullBands : List String) (overwrite : Bool) :
    List String → List String → List String → List (String × Nat) →
    (List String × List String × Bool) × List (String × Nat)
  | [], acc, errAcc, translated => ((acc, errAcc, false), translated)
  | elem :: rest, acc, errAcc, translated =>
    let out_filename := stem ++ "_" ++ elem ++ ".tif"
    let out_filepath := pjoin parent (pjoin image (pjoin prep out_filename))
    if env.isFile out_filepath && !overwrite then
      (([out_filepath], errAcc, true), translated)
    else
      let band_num := fullBands.indexOf elem + 1
      let errAcc' := if env.translateFails out_filepath then
          errAcc ++ ["Could not write singleband image " ++ out_filepath]
        else errAcc
      splitLoop env parent image prep stem fullBands overwrite rest
        (acc ++ [out_filepath]) errAcc' (translated ++ [(out_filepath, band_num)])

/-- `gdal_split_band` (PansharpRaster.py:376-412).  A `get_band_order`
exception propagates uncaught; an empty-band error is returned in the
error list; inside the loop, `image.merge_img_fp.stem` raises when the
field is unset. -/
def gdal_split_band (env : RasterEnv) (image : ImageInfo)
    (overwrite : Bool) : SplitOut :=
  match get_band_order env (match image.mul_xml with | some x => x | none => "None") with
  | .error e => { exc := some e }
  | .ok (list_band_order, err) =>
    match err with
    | some e => { ret := some ([], [e]) }
    | none =>
      if list_band_order.isEmpty then { ret := some ([], []) }
      else
        match image.merge_img_fp, image.prep_folder with
        | some mfp, some prep =>
          let res := splitLoop env image.parent_folder image.image_folder prep
            (pathStem mfp) list_band_order overwrite list_band_order [] [] []
          { ret := some (res.fst.fst, res.fst.snd.fst), translated := res.snd }
        | _, _ => { exc := some "TypeError / AttributeError: missing ImageInfo field" }

/-! Concrete environments and records used to evaluate the model. -/

/-- Concrete discovery environment: one already-pansharpened raster whose
dtype is uint8 and whose manifest lists three tiles. -/
def envC1 : GlobEnv where
  cwd0 := "HOME"
  isFile := fun p => p = "BASE/IMG01/TILE_PSH/TILE.XML"
  mulGlob := fun _ => []
  pshGlobResults := fun pat =>
    if pat = "*_PSH/*-PSH*.tif" then
      [⟨"TILE_PSH/TILE-PSH.tif", "IMG01", "BASE/IMG01/TILE_PSH/TILE.XML", "TILE_PREP"⟩]
    else []
  closeMatches := fun _ ps => ps
  readDtype := fun p =>
    if p = "BASE/IMG01/TILE_PSH/TILE-PSH.tif" then some "uint8" else none
  manifestTiles := fun x =>
    if x = "BASE/IMG01/TILE_PSH/TILE.XML" then ["R1C1", "R1C2", "R1C3"] else []

/-- The record `tile_list_glob` emits for the `envC1` scenario. -/
def tileC1 : TileInfo where
  parent_folder := "BASE"
  process_steps := []
  dtype := "uint8"
  image_folder := "IMG01"
  psh_tile := some "TILE_PSH/TILE-PSH.tif"
  prep_folder := some "TILE_PREP"
  last_processed_fp := some "BASE/IMG01/TILE_PSH/TILE-PSH.tif"
  mul_xml := some "BASE/IMG01/TILE_PSH/TILE.XML"

/-- Concrete discovery environment: one multispectral/panchromatic pair
whose multispectral manifest lists two tiles while the panchromatic
manifest lists one. -/
def envC2 : GlobEnv where
  cwd0 := "HOME"
  isFile := fun p =>
    p = "IMG01/MUL/TILE-M1.TIF" || p = "IMG01/PAN/TILE-P1.TIF" ||
    p = "BASE/IMG01/MUL/TILE.XML"
  mulGlob := fun pat =>
    if pat = "**/*_MUL/*-M*.tif" then
      [⟨"MUL/TILE-M1.TIF", "IMG01", ["PAN/TILE-P1.TIF"], "PAN/TILE-P1.TIF",
        "BASE/IMG01/MUL/TILE.XML", "PREP"⟩]
    else []
  pshGlobResults := fun _ => []
  closeMatches := fun _ ps => ps
  readDtype := fun p => if p = "IMG01/MUL/TILE-M1.TIF" then some "uint16" else none
  manifestTiles := fun x =>
    if x = "BASE/IMG01/MUL/TILE.XML" then ["R1C1", "R1C2"]
    else if x = "BASE/IMG01/PAN/TILE.XML" then ["R1C1"] else []

/-- The record `tile_list_glob` emits for the `envC2` scenario. -/
def tileC2 : TileInfo where
  parent_folder := "BASE"
  process_steps := ["psh", "scale"]
  dtype := "uint16"
  image_folder := "IMG01"
  mul_pan_patern := some (("**/*_MUL/*-M*", "../*_PAN"), ("-M", "-P"))
  mul_tile := some "MUL/TILE-M1.TIF"
  pan_tile := some "PAN/TILE-P1.TIF"
  prep_folder := some "PREP"
  mul_xml := some "BASE/IMG01/MUL/TILE.XML"

/-- First candidate of the `envC3` scenario: its panchromatic glob finds a
file, but no name is a reasonable fuzzy match for the best guess. -/
def candC3a : MulCandidate where
  mulRasterRel := "MUL/AAAA-M1.TIF"
  imageFolder := "IMG02"
  panGlobResults := ["PAN/ZZZZ.QQQ"]
  panBestGuess := "PAN/AAAA-P1.TIF"
  mulXml := "BASE/IMG02/MUL/AAAA.XML"
  prepFolder := "PREP"

/-- Second candidate of the `envC3` scenario: fully valid, it would be
emitted if the run reached it. -/
def candC3b : MulCandidate where
  mulRasterRel := "MUL/TILE-M1.TIF"
  imageFolder := "IMG01"
  panGlobResults := ["PAN/TILE-P1.TIF"]
  panBestGuess := "PAN/TILE-P1.TIF"
  mulXml := "BASE/IMG01/MUL/TILE.XML"
  prepFolder := "PREP"

/-- The pattern pair of the `envC3` scenario. -/
def infoC3 : MulPanInfo where
  globPair := ("**/*_MUL/*-M*", "../*_PAN")
  strPair := ("-M", "-P")

/-- Concrete discovery environment: two multispectral candidates; for the
first the Matcher (difflib with cutoff 0.6) finds no reasonable match, so
`get_close_matches` returns the empty list; the second is fully valid. -/
def envC3 : GlobEnv where
  cwd0 := "HOME"
  isFile := fun p =>
    p = "IMG02/MUL/AAAA-M1.TIF" || p = "IMG01/MUL/TILE-M1.TIF" ||
    p = "IMG01/PAN/TILE-P1.TIF" || p = "BASE/IMG01/MUL/TILE.XML"
  mulGlob := fun pat =>
    if pat = "**/*_MUL/*-M*.tif" then [candC3a, candC3b] else []
  pshGlobResults := fun _ => []
  closeMatches := fun w ps => if w = "PAN/AAAA-P1.TIF" then [] else ps
  readDtype := fun p => if p = "IMG01/MUL/TILE-M1.TIF" then some "uint16" else none
  manifestTiles := fun _ => []

/-- The record the second `envC3` candidate would yield. -/
def tileC3b : TileInfo where
  parent_folder := "BASE"
  process_steps := ["psh", "scale"]
  dtype := "uint16"
  image_folder := "IMG01"
  mul_pan_patern := some (("**/*_MUL/*-M*", "../*_PAN"), ("-M", "-P"))
  mul_tile := some "MUL/TILE-M1.TIF"
  pan_tile := some "PAN/TILE-P1.TIF"
  prep_folder := some "PREP"
  mul_xml := some "BASE/IMG01/MUL/TILE.XML"

/-- Minimal discovery environment for the working-directory scenario. -/
def envC8 : GlobEnv where
  cwd0 := "HOME"
  isFile := fun _ => false
  mulGlob := fun _ => []
  pshGlobResults := fun _ => []
  closeMatches := fun _ ps => ps
  readDtype := fun _ => none
  manifestTiles := fun _ => []

/-- A processing environment where every oracle reports absence/success. -/
def baseRasterEnv : RasterEnv where
  isFile := fun _ => false
  isFileAfter := fun _ => false
  otbRaises := false
  otbErrMsg := ""
  numpyImportFails := false
  numpyRaises := false
  translateFails := fun _ => false
  mergeFails := false
  parseXml := fun _ => none

/-- Processing environment in which the otb collaborator raises
`RuntimeError`; the mul/pan inputs exist and the output does not. -/
def envC4 : RasterEnv :=
  { baseRasterEnv with
    isFile := fun p =>
      p = "BASE/IMG01/MUL/TILE-M1.TIF" || p = "BASE/IMG01/PAN/TILE-P1.TIF"
    otbRaises := true
    otbErrMsg := "RuntimeError: otbApplication failed" }

/-- Like `envC4` but the collaborator returns normally and simply fails to
materialize the output file. -/
def envC4b : RasterEnv := { envC4 with otbRaises := false }

/-- A not-yet-sharpened tile record used to invoke the pansharp stage. -/
def tileC4 : TileInfo where
  parent_folder := "BASE"
  process_steps := ["psh", "scale"]
  dtype := "uint16"
  image_folder := "IMG01"
  mul_pan_patern := some (("**/*_MUL/*-M*", "../*_PAN"), ("-M", "-P"))
  mul_tile := some "MUL/TILE-M1.TIF"
  pan_tile := some "PAN/TILE-P1.TIF"
  prep_folder := some "PREP"

/-- Processing environment where the pansharp output already exists but
both the multispectral and the panchromatic input files are missing. -/
def envC6 : RasterEnv :=
  { baseRasterEnv with
    isFile := fun p => p = "BASE/IMG01/PREP/TILE-PSH-bayes-1_uint16.TIF" }

/-- Processing environment where the pansharp output already exists and
the multispectral input also exists. -/
def envC6a : RasterEnv :=
  { baseRasterEnv with
    isFile := fun p =>
      p = "BASE/IMG01/PREP/TILE-PSH-bayes-1_uint16.TIF" ||
      p = "BASE/IMG01/MUL/TILE-M1.TIF" }

/-- A tile whose pansharp output has already been produced, ready for the
rescale stage. -/
def tileC6b : TileInfo where
  parent_folder := "BASE"
  process_steps := ["psh", "scale"]
  dtype := "uint16"
  image_folder := "IMG01"
  mul_tile := some "MUL/TILE-M1.TIF"
  pan_tile := some "PAN/TILE-P1.TIF"
  prep_folder := some "PREP"
  last_processed_fp := some "BASE/IMG01/PREP/TILE-PSH-bayes-1_uint16.TIF"

/-- Processing environment where the rescaled 8-bit output exists. -/
def envC6b : RasterEnv :=
  { baseRasterEnv with
    isFile := fun p => p = "BASE/IMG01/PREP/TILE-PSH-bayes-1_uint8.tif" }

/-- An image record with one processed tile, ready for the merge stage. -/
def imgC6c : ImageInfo where
  parent_folder := "BASE"
  image_folder := "IMG01"
  prep_folder := some "PREP"
  tile_list := some ["BASE/IMG01/PREP/TILE-R1C1-x.tif"]

/-- Processing environment where the merged output already exists. -/
def envC6c : RasterEnv :=
  { baseRasterEnv with
    isFile := fun p => p = "BASE/IMG01/PREP/TILE-Merge-x.tif" }

/-- Processing environment whose XML parser fails on every file,
modelling a missing or unparsable manifest. -/
def envC5 : RasterEnv := baseRasterEnv

/-- An image record pointing at a manifest that cannot be parsed under
`envC5`. -/
def imgC5 : ImageInfo where
  parent_folder := "BASE"
  image_folder := "IMG01"
  prep_folder := some "PREP"
  merge_img_fp := some "BASE/IMG01/PREP/TILE-Merge.tif"
  mul_xml := some "BASE/IMG01/MUL/TILE.XML"

/-- Processing environment where the manifest parses but its root has no
IMD child, so no band order can be located. -/
def envC5b : RasterEnv :=
  { baseRasterEnv with
    parseXml := fun x =>
      if x = "BASE/IMG01/MUL/TILE.XML" then some [("TIL", ["TILE1"])] else none }

/-- Processing environment for the split stage: the manifest lists three
bands, and only the second per-band output already exists on disk. -/
def envC10 : RasterEnv :=
  { baseRasterEnv with
    isFile := fun p => p = "BASE/IMG01/PREP/TILE-Merge_BAND_G.tif"
    parseXml := fun x =>
      if x = "BASE/IMG01/MUL/TILE.XML" then
        some [("IMD", ["BAND_R", "BAND_G", "BAND_B"])]
      else none }

/-- An image record for the split stage under `envC10`. -/
def imgC10 : ImageInfo where
  parent_folder := "BASE"
  image_folder := "IMG01"
  prep_folder := some "PREP"
  merge_img_fp := some "BASE/IMG01/PREP/TILE-Merge.tif"
  mul_xml := some "BASE/IMG01/MUL/TILE.XML"

/-- Per-band output path of the split stage under `imgC10`. -/
def outPC10 : String → String := fun b =>
  pjoin "BASE" (pjoin "IMG01" (pjoin "PREP"
    (pathStem "BASE/IMG01/PREP/TILE-Merge.tif" ++ "_" ++ b ++ ".tif")))

/-! Helper lemmas about the discovery engine. -/

/-- A record emitted by the multispectral pass pairs a multispectral and
a panchromatic tile, has no pansharp tile, and plans exactly
`psh` plus (when the dtype is not uint8) `scale`. -/
theorem processMulCandidate_emit {env : GlobEnv} {baseDir : String}
    {info : MulPanInfo} {c : MulCandidate} {t : TileInfo} {errs : List String}
    (h : processMulCandidate env baseDir info c = .emit t errs) :
    t.psh_tile = none ∧ t.mul_tile = some c.mulRasterRel ∧ t.pan_tile.isSome ∧
    t.process_steps = ["psh"] ++ (if t.dtype ≠ "uint8" then ["scale"] else []) := by
  unfold processMulCandidate at h
  repeat' split at h
  all_goals simp at h
  all_goals obtain ⟨h1, h2⟩ := h
  all_goals subst h1
  all_goals simp_all

/-- A record emitted by the pansharpened pass carries a pansharp tile, no
mul/pan pair, and plans only (when the dtype is not uint8) `scale`. -/
theorem processPshCandidate_some {env : GlobEnv} {baseDir : String}
    {c : PshCandidate} {t : TileInfo}
    (h : processPshCandidate env baseDir c = some t) :
    t.psh_tile = some c.pshRasterRel ∧ t.mul_tile = none ∧ t.pan_tile = none ∧
    t.process_steps = if t.dtype ≠ "uint8" then ["scale"] else [] := by
  unfold processPshCandidate at h
  repeat' split at h
  all_goals simp at h
  all_goals subst h
  all_goals simp_all

/-- Every record accumulated by the multispectral pass was emitted by
`processMulCandidate`. -/
theorem runPass1_mem {env : GlobEnv} {baseDir : String} :
    ∀ (l : List (MulPanInfo × MulCandidate)) (t : TileInfo),
      t ∈ (runPass1 env baseDir l).tiles →
      ∃ info c errs, processMulCandidate env baseDir info c = .emit t errs := by
  intro l
  induction l with
  | nil => simp [runPass1]
  | cons p rest ih =>
    intro t ht
    obtain ⟨info, c⟩ := p
    rcases hpc : processMulCandidate env baseDir info c with e | t' | e
    · rw [runPass1, hpc] at ht
      exact ih t ht
    · rw [runPass1, hpc] at ht
      rcases List.mem_cons.mp ht with rfl | hmem
      · exact ⟨info, c, _, hpc⟩
      · exact ih t hmem
    · rw [runPass1, hpc] at ht
      simp at ht

/-- Every record accumulated by the pansharpened pass was produced by
`processPshCandidate`. -/
theorem runPass2_mem {env : GlobEnv} {baseDir : String} :
    ∀ (l : List PshCandidate) (t : TileInfo),
      t ∈ runPass2 env baseDir l →
      ∃ c, processPshCandidate env baseDir c = some t := by
  intro l
  induction l with
  | nil => simp [runPass2]
  | cons c rest ih =>
    intro t ht
    rcases hpc : processPshCandidate env baseDir c with _ | t'
    · rw [runPass2, hpc] at ht
      exact ih t ht
    · rw [runPass2, hpc] at ht
      rcases List.mem_cons.mp ht with rfl | hmem
      · exact ⟨c, hpc⟩
      · exact ih t hmem

/-- Every record returned by `tile_list_glob` comes from one of the two
passes. -/
theorem tile_list_glob_mem {env : GlobEnv} {baseDir : String}
    {mulPanGlob mulPanStr : List (String × String)}
    {pshGlob extensions : List String} {t : TileInfo}
    (h : t ∈ (tile_list_glob env baseDir mulPanGlob mulPanStr pshGlob extensions).tiles) :
    (∃ info c errs, processMulCandidate env baseDir info c = .emit t errs) ∨
    (∃ c, processPshCandidate env baseDir c = some t) := by
  unfold tile_list_glob at h
  dsimp only at h
  repeat' split at h
  · exact Or.inl (runPass1_mem _ t h)
  · exact Or.inl (runPass1_mem _ t h)
  · rcases List.mem_append.mp h with h1 | h2
    · exact Or.inl (runPass1_mem _ t h1)
    · exact Or.inr (runPass2_mem _ t h2)
  · simp at h

/-- The per-candidate step never reads the manifest oracle. -/
theorem processMulCandidate_manifest_congr (env : GlobEnv)
    (f : String → List String) (baseDir : String) (info : MulPanInfo)
    (c : MulCandidate) :
    processMulCandidate { env with manifestTiles := f } baseDir info c =
      processMulCandidate env baseDir info c := rfl

/-- The pansharpened per-candidate step never reads the manifest oracle. -/
theorem processPshCandidate_manifest_congr (env : GlobEnv)
    (f : String → List String) (baseDir : String) (c : PshCandidate) :
    processPshCandidate { env with manifestTiles := f } baseDir c =
      processPshCandidate env baseDir c := rfl

/-- The multispectral pass never reads the manifest oracle. -/
theorem runPass1_manifest_congr {env : GlobEnv} {f : String → List String}
    {baseDir : String} (l : List (MulPanInfo × MulCandidate)) :
    runPass1 { env with manifestTiles := f } baseDir l = runPass1 env baseDir l := by
  induction l with
  | nil => rfl
  | cons p rest ih =>
    rw [runPass1, runPass1, processMulCandidate_manifest_congr, ih]

/-- The pansharpened pass never reads the manifest oracle. -/
theorem runPass2_manifest_congr {env : GlobEnv} {f : String → List String}
    {baseDir : String} (l : List PshCandidate) :
    runPass2 { env with manifestTiles := f } baseDir l = runPass2 env baseDir l := by
  induction l with
  | nil => rfl
  | cons c rest ih =>
    rw [runPass2, runPass2, processPshCandidate_manifest_congr, ih]

/-! Claim theorems about the discovery engine. -/

/-- Claim C1 (amended): every record emitted by discovery plans `psh`
exactly when the candidate is not an already-sharpened product and
`scale` exactly when the source datatype is not uint8, in that order;
`merge` is never part of the plan (the source never adds it). -/
theorem C1_amended_process_steps :
    ∀ (env : GlobEnv) (baseDir : String)
      (mulPanGlob mulPanStr : List (String × String))
      (pshGlob extensions : List String) (t : TileInfo),
      t ∈ (tile_list_glob env baseDir mulPanGlob mulPanStr pshGlob extensions).tiles →
      t.process_steps =
        (if t.psh_tile = none then ["psh"] else []) ++
        (if t.dtype ≠ "uint8" then ["scale"] else []) ∧
      "merge" ∉ t.process_steps := by
  intro env b g s pg exts t h
  rcases tile_list_glob_mem h with ⟨info, c, errs, hemit⟩ | ⟨c, hsome⟩
  · obtain ⟨h1, h2, h3, h4⟩ := processMulCandidate_emit hemit
    refine ⟨by simp [h1, h4], ?_⟩
    rw [h4]
    by_cases hd : t.dtype = "uint8" <;> simp [hd]
  · obtain ⟨h1, h2, h3, h4⟩ := processPshCandidate_some hsome
    refine ⟨by simp [h1, h4], ?_⟩
    rw [h4]
    by_cases hd : t.dtype = "uint8" <;> simp [hd]

/-- Claim C1, witness: the amended statement applied to the concrete
`envC1` discovery run. -/
theorem C1_witness :
    tileC1.process_steps =
      (if tileC1.psh_tile = none then ["psh"] else []) ++
      (if tileC1.dtype ≠ "uint8" then ["scale"] else []) ∧
    "merge" ∉ tileC1.process_steps :=
  C1_amended_process_steps envC1 "BASE" [] [] ["*_PSH/*-PSH*"] ["tif"] tileC1 (by decide)

/-- Claim C1, counterexample: a 3-tile (per its manifest), uint8,
already-sharpened acquisition is emitted with `process_steps = []`,
not `["merge"]` as the claim requires. -/
theorem C1_counterexample :
    envC1.manifestTiles "BASE/IMG01/TILE_PSH/TILE.XML" = ["R1C1", "R1C2", "R1C3"] ∧
    (tile_list_glob envC1 "BASE" [] [] ["*_PSH/*-PSH*"] ["tif"]).tiles = [tileC1] ∧
    tileC1.dtype = "uint8" ∧ tileC1.psh_tile.isSome = true ∧
    tileC1.process_steps = [] ∧ ([] : List String) ≠ ["merge"] :=
  ⟨rfl, rfl, rfl, rfl, rfl, by decide⟩

/-- Claim C2 (amended): discovery never consults any manifest tile list —
its outcome is invariant under arbitrary changes of the manifest oracle —
so a tile-count mismatch between the multispectral and panchromatic
manifests is not detected. -/
theorem C2_amended_manifest_independent :
    ∀ (env : GlobEnv) (f : String → List String) (baseDir : String)
      (mulPanGlob mulPanStr : List (String × String))
      (pshGlob extensions : List String),
      tile_list_glob { env with manifestTiles := f } baseDir mulPanGlob mulPanStr
          pshGlob extensions =
        tile_list_glob env baseDir mulPanGlob mulPanStr pshGlob extensions := by
  intro env f b g s pg exts
  unfold tile_list_glob
  by_cases h : g.length = s.length
  · rw [if_pos h, if_pos h]
    dsimp only
    rw [runPass1_manifest_congr, runPass2_manifest_congr]
  · rw [if_neg h, if_neg h]

/-- Claim C2, counterexample: an acquisition whose multispectral manifest
lists two tiles while its panchromatic manifest lists one is still
emitted as a Tile record (one record, no logged error, no exception) —
not skipped with a recorded discovery error as the claim requires. -/
theorem C2_counterexample :
    (envC2.manifestTiles "BASE/IMG01/MUL/TILE.XML").length = 2 ∧
    (envC2.manifestTiles "BASE/IMG01/PAN/TILE.XML").length = 1 ∧ (2 : Nat) ≠ 1 ∧
    tile_list_glob envC2 "BASE" [("**/*_MUL/*-M*", "../*_PAN")] [("-M", "-P")] [] ["tif"]
      = ⟨none, [tileC2], [], "BASE", true⟩ :=
  ⟨rfl, rfl, by decide, rfl⟩

/-- Claim C3 (code bug): with a non-empty panchromatic glob but no
reasonable fuzzy match, `get_close_matches(...)[0]` raises `IndexError`,
which escapes `tile_list_glob`: the run aborts with no recorded error and
a fully valid later candidate (second conjunct) is never emitted. -/
theorem C3_code_bug_matcher_indexerror :
    tile_list_glob envC3 "BASE" [("**/*_MUL/*-M*", "../*_PAN")] [("-M", "-P")] [] ["tif"]
      = ⟨some "IndexError: list index out of range", [], [], "BASE", true⟩ ∧
    processMulCandidate envC3 "BASE" infoC3 candC3b = .emit tileC3b [] :=
  ⟨rfl, rfl⟩

/-- Claim C7: every emitted Tile record satisfies the exclusivity
invariant between `psh_tile` and the `mul_tile`/`pan_tile` pair. -/
theorem C7_tile_exclusivity :
    ∀ (env : GlobEnv) (baseDir : String)
      (mulPanGlob mulPanStr : List (String × String))
      (pshGlob extensions : List String) (t : TileInfo),
      t ∈ (tile_list_glob env baseDir mulPanGlob mulPanStr pshGlob extensions).tiles →
      (t.psh_tile.isSome = true → t.mul_tile = none ∧ t.pan_tile = none) ∧
      ((t.mul_tile.isSome = true ∨ t.pan_tile.isSome = true) → t.psh_tile = none) := by
  intro env b g s pg exts t h
  rcases tile_list_glob_mem h with ⟨info, c, errs, hemit⟩ | ⟨c, hsome⟩
  · obtain ⟨h1, h2, h3, h4⟩ := processMulCandidate_emit hemit
    exact ⟨fun hps => by simp [h1] at hps, fun _ => h1⟩
  · obtain ⟨h1, h2, h3, h4⟩ := processPshCandidate_some hsome
    exact ⟨fun _ => ⟨h2, h3⟩, fun hmp => by simp [h2, h3] at hmp⟩

/-- Claim C7, witness: the invariant applied to the record emitted by the
concrete `envC1` discovery run. -/
theorem C7_witness :
    (tileC1.psh_tile.isSome = true → tileC1.mul_tile = none ∧ tileC1.pan_tile = none) ∧
    ((tileC1.mul_tile.isSome = true ∨ tileC1.pan_tile.isSome = true) →
      tileC1.psh_tile = none) :=
  C7_tile_exclusivity envC1 "BASE" [] [] ["*_PSH/*-PSH*"] ["tif"] tileC1 (by decide)

/-- Claim C8 (amended): the working directory is changed to the base
directory by discovery and is NOT restored: whenever the assert passes,
the working directory after the call is the base directory. -/
theorem C8_amended_cwd_not_restored :
    ∀ (env : GlobEnv) (baseDir : String)
      (mulPanGlob mulPanStr : List (String × String))
      (pshGlob extensions : List String),
      mulPanGlob.length = mulPanStr.length →
      (tile_list_glob env baseDir mulPanGlob mulPanStr pshGlob extensions).finalCwd
        = baseDir := by
  intro env b g s pg exts h
  unfold tile_list_glob
  rw [if_pos h]
  dsimp only
  repeat' split
  all_goals rfl

/-- Claim C8, witness: the amended statement applied to the concrete
`envC8` run. -/
theorem C8_witness :
    ([] : List (String × String)).length = ([] : List (String × String)).length ∧
    (tile_list_glob envC8 "DATA" [] [] [] []).finalCwd = "DATA" :=
  ⟨rfl, C8_amended_cwd_not_restored envC8 "DATA" [] [] [] [] rfl⟩

/-- Claim C8, counterexample: after a run whose base directory differs
from the entry working directory, the working directory equals the base
directory, not the entry value — the change is not restored. -/
theorem C8_counterexample :
    envC8.cwd0 = "HOME" ∧
    (tile_list_glob envC8 "DATA" [] [] [] []).finalCwd = "DATA" ∧
    ("DATA" : String) ≠ "HOME" :=
  ⟨rfl, rfl, by decide⟩

/-- Claim C9: when the two pattern lists differ in length, the call fails
at once with an `AssertionError`: no record is emitted, nothing is
logged, the working directory is untouched, and no glob is performed. -/
theorem C9_assert_fails_fast :
    ∀ (env : GlobEnv) (baseDir : String)
      (mulPanGlob mulPanStr : List (String × String))
      (pshGlob extensions : List String),
      mulPanGlob.length ≠ mulPanStr.length →
      tile_list_glob env baseDir mulPanGlob mulPanStr pshGlob extensions =
        ⟨some "AssertionError: Missing info about multispectral and panchromatic images",
          [], [], env.cwd0, false⟩ := by
  intro env b g s pg exts h
  unfold tile_list_glob
  rw [if_neg h]

/-- Claim C9, witness: the fail-fast statement applied to concrete
pattern lists of lengths 1 and 0. -/
theorem C9_witness :
    ([("a", "b")] : List (String × String)).length ≠
      ([] : List (String × String)).length ∧
    tile_list_glob envC8 "DATA" [("a", "b")] [] [] [] =
      ⟨some "AssertionError: Missing info about multispectral and panchromatic images",
        [], [], "HOME", false⟩ :=
  ⟨by decide, C9_assert_fails_fast envC8 "DATA" [("a", "b")] [] [] [] (by decide)⟩

/-! Claim theorems about the processing stages. -/

/-- Claim C4, counterexample: when the otb collaborator raises, the error
is recorded only in the local list and the stage returns `None` — the
recorded errors are not part of any `(output path, errors)` result. -/
theorem C4_counterexample :
    (pansharpen envC4 tileC4 "otb-bayes" false false).retval = none ∧
    (pansharpen envC4 tileC4 "otb-bayes" false false).recorded =
      ["RuntimeError: otbApplication failed"] ∧
    (pansharpen envC4 tileC4 "otb-bayes" false false).exc = none ∧
    ["RuntimeError: otbApplication failed"] ≠ ([] : List String) :=
  ⟨rfl, rfl, rfl, by decide⟩

/-- Claim C4 (amended): for the otb backend with valid inputs and no
pre-existing output, a collaborator failure is caught and recorded but
the stage returns `None`, discarding the recorded errors; only when the
call completes and the output does not materialize is the error returned
as part of the `(output path, errors)` result.  No exception escapes in
either case. -/
theorem C4_amended_pansharpen_errors :
    ∀ (env : RasterEnv) (base img mul pan prep dtype method : String)
      (gp sp : String × String) (steps : List String)
      (lp xml : Option String) (errsF : Option (List String)) (outPath : String),
      outPath = pjoin base (pjoin img (pjoin prep
        ((pySplit (pathStem pan) sp.snd).headD "" ++
          ("-PSH-" ++ (if pyStartsWith method "otb-" then
            (pySplit method "otb-").getLastD "" else method) ++ "-") ++
          (pySplit (pathStem pan) sp.snd).getLastD "" ++ "_" ++ dtype ++ ".TIF"))) →
      pyStartsWith method "otb-" = true →
      (env.isFile (pjoin base (pjoin img mul)) ||
        env.isFile (pjoin base (pjoin img pan))) = true →
      env.isFile outPath = false →
      ((env.otbRaises = true →
        pansharpen env ⟨base, steps, dtype, img, some (gp, sp), some mul, some pan,
            none, some prep, lp, xml, errsF⟩ method false false =
          { retval := none, recorded := [env.otbErrMsg], otbCalled := true }) ∧
       (env.otbRaises = false → env.isFileAfter outPath = false →
        pansharpen env ⟨base, steps, dtype, img, some (gp, sp), some mul, some pan,
            none, some prep, lp, xml, errsF⟩ method false false =
          { retval := some (outPath, ["Failed to created pansharp: " ++ outPath])
            recorded := ["Failed to created pansharp: " ++ outPath]
            otbCalled := true })) := by
  intro env base img mul pan prep dtype method gp sp steps lp xml errsF outPath
  intro hout hm hin hskip
  subst hout
  refine ⟨fun hotb => ?_, fun hotb hafter => ?_⟩
  · unfold pansharpen
    dsimp only
    rw [hin, hskip, hm, hotb]
    simp
  · unfold pansharpen
    dsimp only
    rw [hin, hskip]
    rw [hm] at hafter ⊢
    rw [hotb, hafter]
    simp

/-- Claim C4, witness: the amended statement applied to the concrete
environments `envC4` (collaborator raises) and `envC4b` (output fails to
materialize). -/
theorem C4_witness :
    pansharpen envC4 tileC4 "otb-bayes" false false =
      { retval := none, recorded := ["RuntimeError: otbApplication failed"],
        otbCalled := true } ∧
    pansharpen envC4b tileC4 "otb-bayes" false false =
      { retval := some ("BASE/IMG01/PREP/TILE-PSH-bayes-1_uint16.TIF",
          ["Failed to created pansharp: BASE/IMG01/PREP/TILE-PSH-bayes-1_uint16.TIF"])
        recorded :=
          ["Failed to created pansharp: BASE/IMG01/PREP/TILE-PSH-bayes-1_uint16.TIF"]
        otbCalled := true } :=
  ⟨(C4_amended_pansharpen_errors envC4 "BASE" "IMG01" "MUL/TILE-M1.TIF"
      "PAN/TILE-P1.TIF" "PREP" "uint16" "otb-bayes" ("**/*_MUL/*-M*", "../*_PAN")
      ("-M", "-P") ["psh", "scale"] none none none _ rfl rfl rfl rfl).1 rfl,
   (C4_amended_pansharpen_errors envC4b "BASE" "IMG01" "MUL/TILE-M1.TIF"
      "PAN/TILE-P1.TIF" "PREP" "uint16" "otb-bayes" ("**/*_MUL/*-M*", "../*_PAN")
      ("-M", "-P") ["psh", "scale"] none none none _ rfl rfl rfl rfl).2 rfl rfl⟩

/-- Claim C5, counterexample: a manifest that cannot be parsed makes
`gdal_split_band` raise (the `ET.parse` exception is uncaught): the error
is not recorded in any returned result. -/
theorem C5_counterexample :
    (gdal_split_band envC5 imgC5 false).exc =
      some "ET.ParseError / FileNotFoundError: BASE/IMG01/MUL/TILE.XML" ∧
    (gdal_split_band envC5 imgC5 false).ret = none :=
  ⟨rfl, rfl⟩

/-- Claim C5 (amended): a missing or unparsable manifest raises out of
`gdal_split_band` uncaught (nothing is returned); only a manifest that
parses but yields no band entries is recorded in the returned error list
without an exception. -/
theorem C5_amended_split_manifest :
    (∀ (env : RasterEnv) (image : ImageInfo) (overwrite : Bool) (x : String),
      image.mul_xml = some x → env.parseXml x = none →
      (gdal_split_band env image overwrite).exc =
        some ("ET.ParseError / FileNotFoundError: " ++ x) ∧
      (gdal_split_band env image overwrite).ret = none) ∧
    (∀ (env : RasterEnv) (image : ImageInfo) (overwrite : Bool) (x : String)
      (children : List (String × List String)),
      image.mul_xml = some x → env.parseXml x = some children →
      children.foldl (fun acc c => if c.fst = "IMD"
        then c.snd.filter (fun j => pyStartsWith j "BAND_") else acc) [] = [] →
      gdal_split_band env image overwrite =
        { ret := some ([],
            ["Could not locate band(s) name and order in provided xml file: " ++ x]) }) := by
  constructor
  · intro env image ow x hx hparse
    unfold gdal_split_band get_band_order
    rw [hx]
    simp [hparse]
  · intro env image ow x children hx hparse hempty
    unfold gdal_split_band get_band_order
    rw [hx]
    simp [hparse, hempty]

/-- Claim C5, witness: the amended statement applied to the concrete
environments `envC5` (parse failure) and `envC5b` (no band entries). -/
theorem C5_witness :
    ((gdal_split_band envC5 imgC5 false).exc =
        some "ET.ParseError / FileNotFoundError: BASE/IMG01/MUL/TILE.XML" ∧
      (gdal_split_band envC5 imgC5 false).ret = none) ∧
    gdal_split_band envC5b imgC5 false =
      { ret := some ([],
          ["Could not locate band(s) name and order in provided xml file: BASE/IMG01/MUL/TILE.XML"]) } :=
  ⟨C5_amended_split_manifest.1 envC5 imgC5 false "BASE/IMG01/MUL/TILE.XML" rfl rfl,
   C5_amended_split_manifest.2 envC5b imgC5 false "BASE/IMG01/MUL/TILE.XML"
     [("TIL", ["TILE1"])] rfl rfl rfl⟩

/-- Claim C6, counterexample: for `pansharpen`, when the output already
exists but both input rasters are missing, the stage does not return the
existing output path: it records a missing-input error and returns
`None` (the missing-input check precedes the skip check). -/
theorem C6_counterexample :
    envC6.isFile "BASE/IMG01/PREP/TILE-PSH-bayes-1_uint16.TIF" = true ∧
    (pansharpen envC6 tileC4 "otb-bayes" false false).retval = none ∧
    (pansharpen envC6 tileC4 "otb-bayes" false false).recorded ≠ [] :=
  ⟨rfl, rfl, by decide⟩

/-- Claim C6 (amended): with overwrite false and an existing output,
`gdal_8bit_rescale` and `rasterio_merge_tiles` always skip and return the
existing path with no error and no collaborator call; `pansharpen` does
the same provided at least one of its mul/pan inputs exists. -/
theorem C6_amended_skip_if_exists :
    (∀ (env : RasterEnv) (base img mul pan prep dtype method : String)
       (gp sp : String × String) (steps : List String)
       (lp xml : Option String) (errsF : Option (List String)) (outPath : String),
       outPath = pjoin base (pjoin img (pjoin prep
         ((pySplit (pathStem pan) sp.snd).headD "" ++
           ("-PSH-" ++ (if pyStartsWith method "otb-" then
             (pySplit method "otb-").getLastD "" else method) ++ "-") ++
           (pySplit (pathStem pan) sp.snd).getLastD "" ++ "_" ++ dtype ++ ".TIF"))) →
       (env.isFile (pjoin base (pjoin img mul)) ||
         env.isFile (pjoin base (pjoin img pan))) = true →
       env.isFile outPath = true →
       pansharpen env ⟨base, steps, dtype, img, some (gp, sp), some mul, some pan,
           none, some prep, lp, xml, errsF⟩ method false false =
         { retval := some (outPath, []) }) ∧
    (∀ (env : RasterEnv) (base img prep dtype infile : String)
       (steps : List String) (mpp : Option ((String × String) × (String × String)))
       (mt pt ps xml : Option String) (errsF : Option (List String)) (outfile : String),
       outfile = pjoin base (pjoin img (pjoin prep
         (if pyEndsWith (pathStem infile) ("_" ++ dtype) then
           pyReplace (pathStem infile) ("_" ++ dtype) "_uint8.tif"
         else pathStem infile ++ "_uint8.tif"))) →
       env.isFile outfile = true →
       gdal_8bit_rescale env ⟨base, steps, dtype, img, mpp, mt, pt, ps, some prep,
           some infile, xml, errsF⟩ false =
         { ret := some (outfile, none) }) ∧
    (∀ (env : RasterEnv) (base img prep t0 : String) (ts : List String)
       (mfp : Option String) (bfl : Option (List String)) (xml : Option String)
       (errsI : Option String) (outfile : String),
       outfile = pjoin base (pjoin img (pjoin prep (subRwCw (pathStem t0) ++ ".tif"))) →
       env.isFile outfile = true →
       rasterio_merge_tiles env ⟨base, img, some prep, some (t0 :: ts), mfp, bfl,
           xml, errsI⟩ false =
         { ret := some (outfile, none) }) := by
  refine ⟨?_, ?_, ?_⟩
  · intro env base img mul pan prep dtype method gp sp steps lp xml errsF outPath
    intro hout hin hex
    subst hout
    unfold pansharpen
    dsimp only
    rw [hin, hex]
    simp
  · intro env base img prep dtype infile steps mpp mt pt ps xml errsF outfile
    intro hout hex
    subst hout
    unfold gdal_8bit_rescale
    dsimp only
    rw [hex]
    simp
  · intro env base img prep t0 ts mfp bfl xml errsI outfile
    intro hout hex
    subst hout
    unfold rasterio_merge_tiles
    dsimp only
    rw [hex]
    simp

/-- Claim C6, witness: the amended statement applied concretely to all
three stages (`envC6a`, `envC6b`, `envC6c`). -/
theorem C6_witness :
    pansharpen envC6a tileC4 "otb-bayes" false false =
      { retval := some ("BASE/IMG01/PREP/TILE-PSH-bayes-1_uint16.TIF", []) } ∧
    gdal_8bit_rescale envC6b tileC6b false =
      { ret := some ("BASE/IMG01/PREP/TILE-PSH-bayes-1_uint8.tif", none) } ∧
    rasterio_merge_tiles envC6c imgC6c false =
      { ret := some ("BASE/IMG01/PREP/TILE-Merge-x.tif", none) } :=
  ⟨C6_amended_skip_if_exists.1 envC6a "BASE" "IMG01" "MUL/TILE-M1.TIF"
      "PAN/TILE-P1.TIF" "PREP" "uint16" "otb-bayes" ("**/*_MUL/*-M*", "../*_PAN")
      ("-M", "-P") ["psh", "scale"] none none none _ rfl rfl rfl,
   C6_amended_skip_if_exists.2.1 envC6b "BASE" "IMG01" "PREP" "uint16"
      "BASE/IMG01/PREP/TILE-PSH-bayes-1_uint16.TIF" ["psh", "scale"]
      none (some "MUL/TILE-M1.TIF") (some "PAN/TILE-P1.TIF") none none none _ rfl rfl,
   C6_amended_skip_if_exists.2.2 envC6c "BASE" "IMG01" "PREP"
      "BASE/IMG01/PREP/TILE-R1C1-x.tif" [] none none none none _ rfl rfl⟩

/-- When every band before `e` has no existing output and the output of
`e` exists (without overwrite), the split loop stops at `e`: it returns
only the path of `e` and its translate trace covers exactly the bands
before `e`. -/
theorem splitLoop_first_existing (env : RasterEnv) (parent image prep stem : String)
    (fullBands : List String) :
    ∀ (pre : List String) (e : String) (post acc errAcc : List String)
      (tr : List (String × Nat)),
      (∀ b ∈ pre, env.isFile (pjoin parent (pjoin image
        (pjoin prep (stem ++ "_" ++ b ++ ".tif")))) = false) →
      env.isFile (pjoin parent (pjoin image
        (pjoin prep (stem ++ "_" ++ e ++ ".tif")))) = true →
      (splitLoop env parent image prep stem fullBands false
          (pre ++ e :: post) acc errAcc tr).fst.fst
        = [pjoin parent (pjoin image (pjoin prep (stem ++ "_" ++ e ++ ".tif")))] ∧
      ((splitLoop env parent image prep stem fullBands false
          (pre ++ e :: post) acc errAcc tr).snd).map Prod.fst
        = tr.map Prod.fst ++ pre.map (fun b =>
            pjoin parent (pjoin image (pjoin prep (stem ++ "_" ++ b ++ ".tif")))) := by
  intro pre
  induction pre with
  | nil =>
    intro e post acc errAcc tr hpre he
    rw [List.nil_append, splitLoop]
    dsimp only
    rw [he]
    simp
  | cons b pre ih =>
    intro e post acc errAcc tr hpre he
    have hb := hpre b (List.mem_cons_self ..)
    rw [List.cons_append, splitLoop]
    dsimp only
    rw [hb]
    have ihr := ih e post
      (acc ++ [pjoin parent (pjoin image (pjoin prep (stem ++ "_" ++ b ++ ".tif")))])
      (if env.translateFails (pjoin parent (pjoin image
          (pjoin prep (stem ++ "_" ++ b ++ ".tif")))) then
        errAcc ++ ["Could not write singleband image " ++
          pjoin parent (pjoin image (pjoin prep (stem ++ "_" ++ b ++ ".tif")))]
      else errAcc)
      (tr ++ [(pjoin parent (pjoin image (pjoin prep (stem ++ "_" ++ b ++ ".tif"))),
        fullBands.indexOf b + 1)])
      (fun x hx => hpre x (List.mem_cons_of_mem _ hx)) he
    simp only [Bool.false_and, Bool.false_eq_true, if_false]
    refine ⟨ihr.1, ?_⟩
    rw [ihr.2]
    simp

/-- Claim C10: if overwrite is false, the manifest parses, and the bands
decompose as `pre ++ e :: post` where no band of `pre` has an existing
output and band `e` does, then `gdal_split_band` returns a result list
containing only the path of `e`, and its translate calls cover exactly
the bands of `pre` — nothing after `e` is produced. -/
theorem C10_split_early_return :
    ∀ (env : RasterEnv) (base img prep mfp xmlPath : String)
      (children : List (String × List String))
      (tl bfl : Option (List String)) (errsI : Option String)
      (pre : List String) (e : String) (post : List String) (outP : String → String),
      (∀ b, outP b = pjoin base (pjoin img (pjoin prep
        (pathStem mfp ++ "_" ++ b ++ ".tif")))) →
      env.parseXml xmlPath = some children →
      children.foldl (fun acc c => if c.fst = "IMD"
        then c.snd.filter (fun j => pyStartsWith j "BAND_") else acc) []
        = pre ++ e :: post →
      (∀ b ∈ pre, env.isFile (outP b) = false) →
      env.isFile (outP e) = true →
      ((gdal_split_band env ⟨base, img, some prep, tl, some mfp, bfl, some xmlPath,
          errsI⟩ false).ret).map Prod.fst = some [outP e] ∧
      ((gdal_split_band env ⟨base, img, some prep, tl, some mfp, bfl, some xmlPath,
          errsI⟩ false).translated).map Prod.fst = pre.map outP := by
  intro env base img prep mfp xmlPath children tl bfl errsI pre e post outP
  intro hout hparse hfold hpre he
  have hfun : outP = fun b => pjoin base (pjoin img (pjoin prep
      (pathStem mfp ++ "_" ++ b ++ ".tif"))) := funext hout
  subst hfun
  simp only at hpre he ⊢
  unfold gdal_split_band get_band_order
  dsimp only
  rw [hparse]
  try dsimp only
  rw [hfold]
  have hne : (pre ++ e :: post).isEmpty = false := by simp
  rw [hne]
  simp only [Bool.false_eq_true, if_false]
  try dsimp only
  have key := splitLoop_first_existing env base img prep (pathStem mfp)
    (pre ++ e :: post) pre e post [] [] [] hpre he
  constructor
  · simp [key.1]
  · simp [key.2]

/-- Claim C10, witness: the early-return statement applied to the
concrete `envC10` split run (three bands, the second already on disk). -/
theorem C10_witness :
    (∀ b, outPC10 b = pjoin "BASE" (pjoin "IMG01" (pjoin "PREP"
      (pathStem "BASE/IMG01/PREP/TILE-Merge.tif" ++ "_" ++ b ++ ".tif")))) ∧
    ((gdal_split_band envC10 imgC10 false).ret).map Prod.fst = some [outPC10 "BAND_G"] ∧
    ((gdal_split_band envC10 imgC10 false).translated).map Prod.fst =
      ["BAND_R"].map outPC10 :=
  ⟨fun _ => rfl,
   (C10_split_early_return envC10 "BASE" "IMG01" "PREP"
      "BASE/IMG01/PREP/TILE-Merge.tif" "BASE/IMG01/MUL/TILE.XML"
      [("IMD", ["BAND_R", "BAND_G", "BAND_B"])] none none none
      ["BAND_R"] "BAND_G" ["BAND_B"] outPC10 (fun _ => rfl) rfl rfl
      (by decide) (by decide)).1,
   (C10_split_early_return envC10 "BASE" "IMG01" "PREP"
      "BASE/IMG01/PREP/TILE-Merge.tif" "BASE/IMG01/MUL/TILE.XML"
      [("IMD", ["BAND_R", "BAND_G", "BAND_B"])] none none none
      ["BAND_R"] "BAND_G" ["BAND_B"] outPC10 (fun _ => rfl) rfl rfl
      (by decide) (by decide)).2⟩
